import Mathlib

/-!
Verification development for the webinar-reminder service in `main.py`.

The embedding models:
  - a calendar (proleptic Gregorian dates, minutes-resolution date-times);
  - the `strptime` parses with formats Y-m-d and H:M used by the code;
  - the `Registration` SQLAlchemy model (lines 19-27);
  - the Celery task `send_whatsapp_reminder` (lines 65-86), with the
    outbound `requests.post` call represented by an explicit `transport`
    argument giving the response of the external channel;
  - the Celery task `check_and_send_reminders` (lines 89-117), including
    the attribute lookup `reg.webinar_date` on lines 95-96, which the
    `Registration` model does not define and which therefore raises
    `AttributeError` for every fetched row;
  - the Flask endpoint `register_webinar` (lines 121-156).

Date-times are minutes since 0001-01-01T00:00 (an `Int`); a date is the
floor of that count divided by 1440, so whole-day differences of dates
match Python's `(a.date() - b.date()).days`.
-/

/-- Gregorian leap-year test. -/
def isLeap (y : Nat) : Bool :=
  y % 4 == 0 && (y % 100 != 0 || y % 400 == 0)

/-- Number of days in month `m` of year `y` (months are 1-based). -/
def daysInMonth (y m : Nat) : Nat :=
  if m = 2 then (if isLeap y then 29 else 28)
  else if m = 4 ∨ m = 6 ∨ m = 9 ∨ m = 11 then 30
  else 31

/-- A calendar date, as produced by `datetime.strptime(s, "%Y-%m-%d").date()`. -/
structure Date where
  year : Nat
  month : Nat
  day : Nat
deriving DecidableEq, Repr

/-- A wall-clock time, as produced by `datetime.strptime(s, "%H:%M").time()`. -/
structure Time where
  hour : Nat
  minute : Nat
deriving DecidableEq, Repr

/-- Days elapsed before month `m` within year `y`. -/
def monthPrefixDays (y m : Nat) : Nat :=
  (List.range (m - 1)).foldl (fun a i => a + daysInMonth y (i + 1)) 0

/-- Day count of a date, measured from 0001-01-01 (day 0), proleptic Gregorian. -/
def dateToDays (d : Date) : Nat :=
  let y := d.year - 1
  y * 365 + y / 4 - y / 100 + y / 400 + monthPrefixDays d.year d.month + (d.day - 1)

/-- Python `datetime.combine(date, time)`: a date-time in minutes since day 0. -/
def datetimeCombine (d : Date) (t : Time) : Int :=
  ((dateToDays d) * 1440 + t.hour * 60 + t.minute : Nat)

/-- The `.date()` of a minutes-resolution date-time, as a day index. -/
def dateOf (dt : Int) : Int :=
  Int.fdiv dt 1440

/-- Split a character list on a separator character. -/
def splitOnChar (c : Char) : List Char → List (List Char)
  | [] => [[]]
  | x :: xs =>
    match splitOnChar c xs with
    | [] => if x == c then [[], [x]] else [[x]]
    | h :: t => if x == c then [] :: h :: t else (x :: h) :: t

/-- Numeric value of a digit list (most significant first). -/
def digitsVal (cs : List Char) : Nat :=
  cs.foldl (fun a c => a * 10 + (c.toNat - 48)) 0

/-- Parse a nonempty all-digit character list. -/
def digitsNat (cs : List Char) : Except String Nat :=
  if cs.length ≠ 0 ∧ cs.all Char.isDigit then Except.ok (digitsVal cs)
  else Except.error "ValueError: invalid numeric field"

/-- Model of `datetime.strptime(s, "%Y-%m-%d")`: a four-digit year, a one- or
two-digit month and day, and the usual calendar validity checks; raises
(`Except.error`) on anything else, as the library call does. -/
def strptimeDate (s : String) : Except String Date :=
  match splitOnChar '-' s.toList with
  | [ys, ms, ds] =>
    match digitsNat ys, digitsNat ms, digitsNat ds with
    | Except.ok y, Except.ok m, Except.ok d =>
      if ys.length = 4 ∧ ms.length ≤ 2 ∧ ds.length ≤ 2 ∧
         1 ≤ y ∧ 1 ≤ m ∧ m ≤ 12 ∧ 1 ≤ d ∧ d ≤ daysInMonth y m then
        Except.ok ⟨y, m, d⟩
      else Except.error "ValueError: time data does not match format Y-m-d"
    | _, _, _ => Except.error "ValueError: time data does not match format Y-m-d"
  | _ => Except.error "ValueError: time data does not match format Y-m-d"

/-- Model of `datetime.strptime(s, "%H:%M")`: one- or two-digit hour below 24
and minute below 60; raises (`Except.error`) on anything else. -/
def strptimeTime (s : String) : Except String Time :=
  match splitOnChar ':' s.toList with
  | [hs, ms] =>
    match digitsNat hs, digitsNat ms with
    | Except.ok h, Except.ok m =>
      if hs.length ≤ 2 ∧ ms.length ≤ 2 ∧ h ≤ 23 ∧ m ≤ 59 then
        Except.ok ⟨h, m⟩
      else Except.error "ValueError: time data does not match format H:M"
    | _, _ => Except.error "ValueError: time data does not match format H:M"
  | _ => Except.error "ValueError: time data does not match format H:M"

/-- English month name, for `strftime("%B")`. -/
def monthName : Nat → String
  | 1 => "January"
  | 2 => "February"
  | 3 => "March"
  | 4 => "April"
  | 5 => "May"
  | 6 => "June"
  | 7 => "July"
  | 8 => "August"
  | 9 => "September"
  | 10 => "October"
  | 11 => "November"
  | 12 => "December"
  | _ => ""

/-- Two-digit zero padding, for `strftime` numeric fields. -/
def pad2 (n : Nat) : String :=
  if n < 10 then "0" ++ toString n else toString n

/-- Model of `wd.strftime("%d %B %Y")` on line 76. -/
def formatDateLong (d : Date) : String :=
  pad2 d.day ++ " " ++ monthName d.month ++ " " ++ toString d.year

/-- Model of `wt.strftime("%I:%M %p")` on line 77 (12-hour clock). -/
def formatTime12 (t : Time) : String :=
  let h12 := if t.hour % 12 = 0 then 12 else t.hour % 12
  pad2 h12 ++ ":" ++ pad2 t.minute ++ " " ++ (if t.hour < 12 then "AM" else "PM")

/-- The `Registration` model of lines 19-27: one row per registrant, with one
delivery flag per configured boundary, each defaulting to `false`. The
`webinar_dt` column is the event date-time in minutes. -/
structure Registration where
  id : Nat
  phone : String
  webinar_dt : Int
  message_template : String
  name : String
  sent_3d : Bool
  sent_2d : Bool
  sent_1d : Bool
deriving DecidableEq, Repr

/-- The JSON payload posted to the webhook on lines 74-80. -/
structure Payload where
  phone : String
  webinar_date : String
  webinar_time : String
  name : String
  days_left : Int
deriving DecidableEq, Repr

/-- Observable outcome of one execution of the `send_whatsapp_reminder` task:
the outbound calls it attempted and the lines it printed. -/
structure DispatchResult where
  posts : List Payload
  logs : List String
deriving DecidableEq, Repr

/-- Error log line printed on line 86. -/
def errLog (phone e : String) : String :=
  "Error sending reminder to " ++ phone ++ ": " ++ e

/-- Success log line printed on line 84. -/
def sentLog (phone : String) : String :=
  "Reminder sent to " ++ phone

/-- Exception message raised by `resp.raise_for_status()` on line 83. -/
def httpError (status : Nat) : String :=
  "HTTPError: status " ++ toString status

/-- The body of the `try` block of `send_whatsapp_reminder` (lines 68-84),
before the `except` clause. `transport` is the external channel: given the
payload of the single `requests.post` call it returns the response status, or
an error for a timeout or network failure. An error value carries the list of
outbound calls already issued when the exception was raised. -/
def sendReminderTry (phone wd wt name : String) (days_left : Int)
    (transport : Payload → Except String Nat) :
    Except (String × List Payload) DispatchResult :=
  match strptimeDate wd with
  | Except.error e => Except.error (e, [])
  | Except.ok d =>
    match strptimeTime wt with
    | Except.error e => Except.error (e, [])
    | Except.ok t =>
      let payload : Payload := ⟨phone, formatDateLong d, formatTime12 t, name, days_left⟩
      match transport payload with
      | Except.error e => Except.error (e, [payload])
      | Except.ok status =>
        if 400 ≤ status then Except.error (httpError status, [payload])
        else Except.ok ⟨[payload], [sentLog phone]⟩

/-- The `send_whatsapp_reminder` task (lines 65-86): the `try` body wrapped in
`except Exception as e`, which catches every failure and prints the error with
the recipient, so the task always returns normally. -/
def send_whatsapp_reminder (phone wd wt name : String) (days_left : Int)
    (transport : Payload → Except String Nat) : DispatchResult :=
  match sendReminderTry phone wd wt name days_left transport with
  | Except.ok r => r
  | Except.error (e, ps) => ⟨ps, [errLog phone e]⟩

/-- Outbound calls issued by a dispatcher run. -/
def dispatchPosts (r : DispatchResult) : List Payload :=
  r.posts

/-- One enqueued `send_whatsapp_reminder.delay(...)` call (lines 103, 109,
115), with the arguments the controller passes. -/
structure DispatchCall where
  phone : String
  wd : Date
  wt : Time
  name : String
  days_left : Int
deriving DecidableEq, Repr

/-- Lines 95-96 read the attribute `webinar_date` from a `Registration` row.
The model of lines 19-27 defines no column of that name (the event date-time
column is `webinar_dt`), so the lookup raises `AttributeError` for every row. -/
def Registration.webinar_date (_ : Registration) : Except String String :=
  Except.error "AttributeError: Registration object has no attribute webinar_date"

/-- Line 98: `days_out`, the whole-day difference between the event date and
`today`. -/
def daysOut (today : Int) (reg : Registration) : Int :=
  dateOf reg.webinar_dt - today

/-- Lines 98-116: the per-registration boundary evaluation and flag update.
The `if`/`elif` chain dispatches a reminder and sets the matching flag for the
first boundary whose day count matches and whose flag is still unset. `wd` and
`wt` are the values lines 95-96 would have produced. -/
def evalBranches (today : Int) (reg : Registration) (wd : Date) (wt : Time) :
    Registration × Option DispatchCall :=
  if daysOut today reg = 3 ∧ reg.sent_3d = false then
    ({ reg with sent_3d := true }, some ⟨reg.phone, wd, wt, reg.name, 3⟩)
  else if daysOut today reg = 2 ∧ reg.sent_2d = false then
    ({ reg with sent_2d := true }, some ⟨reg.phone, wd, wt, reg.name, 2⟩)
  else if daysOut today reg = 1 ∧ reg.sent_1d = false then
    ({ reg with sent_1d := true }, some ⟨reg.phone, wd, wt, reg.name, 1⟩)
  else (reg, none)

/-- The loop body of `check_and_send_reminders` for one fetched row (lines
95-116): evaluate lines 95-96 (each of which raises `AttributeError`, and
whose results would in any case fail the `strptime` parses), then run the
boundary branches. An `Except.error` models an uncaught Python exception. -/
def processFetchedReg (today : Int) (reg : Registration) :
    Except String (Registration × Option DispatchCall) :=
  match reg.webinar_date with
  | Except.error e => Except.error e
  | Except.ok wdStr =>
    match strptimeDate wdStr with
    | Except.error e => Except.error e
    | Except.ok wd =>
      match reg.webinar_date with
      | Except.error e => Except.error e
      | Except.ok wtStr =>
        match strptimeTime wtStr with
        | Except.error e => Except.error e
        | Except.ok wt => Except.ok (evalBranches today reg wd wt)

/-- Result of one run of the `check_and_send_reminders` task: the persisted
table state after the run, the reminder dispatches enqueued during the run,
and the exception escaping the task, if any. -/
structure CycleOutcome where
  db : List Registration
  dispatches : List DispatchCall
  error : Option String
deriving DecidableEq, Repr

/-- The `for` loop of lines 94-116 over the rows of the table: rows failing
the fetch filter `webinar_dt >= now` are not yielded by the query and stay
unchanged; each yielded row is processed by the loop body, and an exception
stops the loop, leaving the remaining rows unprocessed while keeping the
dispatches already enqueued. -/
def cycleLoop (today now : Int) : List Registration → CycleOutcome
  | [] => ⟨[], [], none⟩
  | r :: rs =>
    if now ≤ r.webinar_dt then
      match processFetchedReg today r with
      | Except.error e => ⟨r :: rs, [], some e⟩
      | Except.ok (rNew, d) =>
        let rest := cycleLoop today now rs
        ⟨rNew :: rest.db, d.toList ++ rest.dispatches, rest.error⟩
    else
      let rest := cycleLoop today now rs
      ⟨r :: rest.db, rest.dispatches, rest.error⟩

/-- The `check_and_send_reminders` task (lines 89-117). `now` is
`datetime.utcnow()` and `today` its date. If the loop finishes without an
exception, `db.session.commit()` on line 117 persists the flag updates;
otherwise the exception escapes the task before the commit and the in-memory
flag changes are discarded, though any dispatches already enqueued stand. -/
def check_and_send_reminders (now : Int) (regs : List Registration) : CycleOutcome :=
  let today := dateOf now
  let res := cycleLoop today now regs
  match res.error with
  | none => ⟨res.db, res.dispatches, none⟩
  | some e => ⟨regs, res.dispatches, some e⟩

/-- A registration-intake request body, as read on lines 123-132: the JSON
fields the endpoint looks at, each possibly absent. -/
structure IntakeRequest where
  webinar_date : Option String
  webinar_time : Option String
  name : Option String
  phone : Option String
  message_template : Option String
deriving DecidableEq, Repr

/-- Response of the intake endpoint: HTTP 201 with the new row id, or
HTTP 400 with an error message. -/
inductive IntakeResponse where
  | created : Nat → IntakeResponse
  | badRequest : String → IntakeResponse
deriving DecidableEq, Repr

/-- Default message template of lines 131-132. -/
def defaultTemplate : String :=
  "Reminder: webinar in \x7bdays\x7d day(s) on \x7bdate\x7d at \x7btime\x7d."

/-- The `try` block of `register_webinar` (lines 124-134): parse the date and
the time, read the name with its default, combine the date-time, read the
phone and the template; a missing key raises `KeyError` and a bad date or time
raises `ValueError`, both modelled as `Except.error`. -/
def intakeAttempt (data : IntakeRequest) :
    Except String (Int × String × String × String) :=
  match data.webinar_date with
  | none => Except.error "KeyError: webinar_date"
  | some wdStr =>
    match strptimeDate wdStr with
    | Except.error e => Except.error e
    | Except.ok wd =>
      match data.webinar_time with
      | none => Except.error "KeyError: webinar_time"
      | some wtStr =>
        match strptimeTime wtStr with
        | Except.error e => Except.error e
        | Except.ok wt =>
          let name := data.name.getD "user"
          let webinar_dt := datetimeCombine wd wt
          match data.phone with
          | none => Except.error "KeyError: phone"
          | some phone =>
            let template := data.message_template.getD defaultTemplate
            Except.ok (webinar_dt, phone, name, template)

/-- The `register_webinar` endpoint (lines 121-156): on a failing `try` block
it answers HTTP 400 with the error and adds no row; on success it adds one row
with the delivery flags at their column defaults (`false`) and returns its id
with HTTP 201. `nextId` is the id the database assigns to the new row. -/
def register_webinar (data : IntakeRequest) (nextId : Nat)
    (regs : List Registration) : IntakeResponse × List Registration :=
  match intakeAttempt data with
  | Except.error e => (IntakeResponse.badRequest e, regs)
  | Except.ok (webinar_dt, phone, name, template) =>
    (IntakeResponse.created nextId,
      regs ++ [⟨nextId, phone, webinar_dt, template, name, false, false, false⟩])

/-- Whether an intake request passes every check of the `try` block: a parseable
date, a parseable time, and a present phone. -/
def wellFormed (data : IntakeRequest) : Bool :=
  (match data.webinar_date with
   | some s => (strptimeDate s).toBool
   | none => false) &&
  (match data.webinar_time with
   | some s => (strptimeTime s).toBool
   | none => false) &&
  data.phone.isSome

/-- The error message of the attribute lookup on lines 95-96. -/
def attrErrMsg : String :=
  "AttributeError: Registration object has no attribute webinar_date"

theorem processFetchedReg_error (today : Int) (reg : Registration) :
    processFetchedReg today reg = Except.error attrErrMsg := rfl

theorem cycleLoop_db_eq (today now : Int) (regs : List Registration) :
    (cycleLoop today now regs).db = regs := by
  induction regs with
  | nil => rfl
  | cons r rs ih =>
    by_cases h : now ≤ r.webinar_dt
    · simp [cycleLoop, h, processFetchedReg_error]
    · simp [cycleLoop, h, ih]

theorem cycleLoop_dispatches_nil (today now : Int) (regs : List Registration) :
    (cycleLoop today now regs).dispatches = [] := by
  induction regs with
  | nil => rfl
  | cons r rs ih =>
    by_cases h : now ≤ r.webinar_dt
    · simp [cycleLoop, h, processFetchedReg_error]
    · simp [cycleLoop, h, ih]

theorem cycleLoop_error_none_iff (today now : Int) (regs : List Registration) :
    (cycleLoop today now regs).error = none ↔ ∀ r ∈ regs, ¬ now ≤ r.webinar_dt := by
  induction regs with
  | nil => simp [cycleLoop]
  | cons r rs ih =>
    by_cases h : now ≤ r.webinar_dt
    · simp [cycleLoop, h, processFetchedReg_error]
    · simp [cycleLoop, h, ih]
      intro _
      omega

theorem check_db_unchanged (now : Int) (regs : List Registration) :
    (check_and_send_reminders now regs).db = regs := by
  unfold check_and_send_reminders
  cases h : (cycleLoop (dateOf now) now regs).error with
  | none => simp [h, cycleLoop_db_eq]
  | some e => simp [h]

theorem check_dispatches_nil (now : Int) (regs : List Registration) :
    (check_and_send_reminders now regs).dispatches = [] := by
  unfold check_and_send_reminders
  cases h : (cycleLoop (dateOf now) now regs).error with
  | none => simp [h, cycleLoop_dispatches_nil]
  | some e => simp [h, cycleLoop_dispatches_nil]

theorem check_error_none_iff (now : Int) (regs : List Registration) :
    (check_and_send_reminders now regs).error = none ↔
      ∀ r ∈ regs, ¬ now ≤ r.webinar_dt := by
  unfold check_and_send_reminders
  rw [← cycleLoop_error_none_iff (dateOf now) now regs]
  cases h : (cycleLoop (dateOf now) now regs).error with
  | none => simp [h]
  | some e => simp [h]

/-- A registration three days ahead of instant 0, no reminder sent yet. -/
def regFix3 : Registration :=
  ⟨1, "+15550001111", 4320, "template", "Alice", false, false, false⟩

/-- A registration two days ahead of instant 0, no reminder sent yet. -/
def regFix2 : Registration :=
  ⟨2, "+15550002222", 2880, "template", "Bob", false, false, false⟩

/-- A registration three days ahead whose 3-day flag is already set. -/
def regFixSent : Registration :=
  ⟨3, "+15550003333", 4320, "template", "Carol", true, false, false⟩

/-- Sample parsed date used as the value lines 95-96 were meant to produce. -/
def dFix : Date := ⟨2025, 1, 4⟩

/-- Sample parsed time used as the value lines 95-96 were meant to produce. -/
def tFix : Time := ⟨10, 30⟩

/-- C1: for a fetched registration whose event is exactly 3 calendar days
ahead with the 3-day flag unset, the spec requires exactly one dispatch with
daysRemaining 3 and the flag set to true; the code instead raises
AttributeError on line 95, before the boundary check, so the cycle enqueues no
dispatch, commits nothing and leaves the flag false — while the branch logic
of lines 99-116, had line 95 produced values, would have dispatched
daysRemaining 3 and set the flag. -/
theorem c1_line95_aborts_before_dispatch :
    (check_and_send_reminders 0 [regFix3]).dispatches = [] ∧
    (check_and_send_reminders 0 [regFix3]).db = [regFix3] ∧
    (check_and_send_reminders 0 [regFix3]).error = some attrErrMsg ∧
    (evalBranches 0 regFix3 dFix tFix).2 =
      some ⟨"+15550001111", dFix, tFix, "Alice", 3⟩ ∧
    (evalBranches 0 regFix3 dFix tFix).1.sent_3d = true := by
  refine ⟨rfl, rfl, rfl, by decide, by decide⟩

/-- C2 counterexample: with two fetched registrations the synchronous failure
on the first is not isolated: the cycle ends with an escaping exception, the
second registration (due a 2-day reminder) is never dispatched, and nothing is
committed — refuting that the rest of the cycle still completes and commits. -/
theorem c2_counterexample :
    (check_and_send_reminders 0 [regFix3, regFix2]).error ≠ none ∧
    (check_and_send_reminders 0 [regFix3, regFix2]).dispatches = [] ∧
    (check_and_send_reminders 0 [regFix3, regFix2]).db = [regFix3, regFix2] := by
  refine ⟨by decide, rfl, rfl⟩

/-- C2 (amended): a failure raised synchronously while processing one
registration propagates out of RunCycle instead of being isolated: whenever at
least one registration is fetched, the cycle ends with an escaping exception,
no flag change is committed (the persisted state is unchanged) and no dispatch
is enqueued, the remaining registrations left unprocessed. -/
theorem c2_sync_error_aborts_cycle (now : Int) (regs : List Registration)
    (h : ∃ r ∈ regs, now ≤ r.webinar_dt) :
    (check_and_send_reminders now regs).error ≠ none ∧
    (check_and_send_reminders now regs).db = regs ∧
    (check_and_send_reminders now regs).dispatches = [] := by
  refine ⟨?_, check_db_unchanged now regs, check_dispatches_nil now regs⟩
  intro hnone
  rcases h with ⟨r, hr, hle⟩
  exact (check_error_none_iff now regs).mp hnone r hr hle

theorem c2_witness :
    (∃ r ∈ [regFix2], (0 : Int) ≤ r.webinar_dt) ∧
    (check_and_send_reminders 0 [regFix2]).error ≠ none :=
  ⟨⟨regFix2, by simp, by decide⟩,
    (c2_sync_error_aborts_cycle 0 [regFix2] ⟨regFix2, by simp, by decide⟩).1⟩

/-- C3: given the five dispatch arguments (address, event date, event time,
display name, days remaining) with a parseable date and time, the dispatcher
issues exactly one outbound call, whose structured payload carries the
address, the formatted date, the formatted time, the display name and the
days-remaining count, whatever the transport outcome. -/
theorem c3_dispatcher_posts_once (phone wd wt name : String) (days_left : Int)
    (transport : Payload → Except String Nat) (d : Date) (t : Time)
    (hd : strptimeDate wd = Except.ok d) (ht : strptimeTime wt = Except.ok t) :
    dispatchPosts (send_whatsapp_reminder phone wd wt name days_left transport) =
      [⟨phone, formatDateLong d, formatTime12 t, name, days_left⟩] := by
  unfold send_whatsapp_reminder sendReminderTry
  rw [hd, ht]
  cases htr : transport ⟨phone, formatDateLong d, formatTime12 t, name, days_left⟩ with
  | error e => simp [htr, dispatchPosts]
  | ok status =>
    by_cases h4 : 400 ≤ status <;> simp [htr, h4, dispatchPosts]

theorem c3_witness :
    dispatchPosts (send_whatsapp_reminder "+15550001111" "2025-01-04" "10:30"
        "Alice" 3 (fun _ => Except.ok 200)) =
      [⟨"+15550001111", formatDateLong ⟨2025, 1, 4⟩, formatTime12 ⟨10, 30⟩,
        "Alice", 3⟩] :=
  c3_dispatcher_posts_once "+15550001111" "2025-01-04" "10:30" "Alice" 3
    (fun _ => Except.ok 200) ⟨2025, 1, 4⟩ ⟨10, 30⟩ rfl rfl

theorem evalBranches_preserves_dt (today : Int) (r : Registration)
    (wd : Date) (wt : Time) :
    (evalBranches today r wd wt).1.webinar_dt = r.webinar_dt := by
  unfold evalBranches
  split_ifs <;> rfl

theorem evalBranches_idem (today : Int) (r : Registration) (wd wd2 : Date)
    (wt wt2 : Time) :
    (evalBranches today (evalBranches today r wd wt).1 wd2 wt2).2 = none := by
  unfold evalBranches
  split_ifs with h1 h2 h3 <;> simp_all [daysOut]

/-- C4: RunCycle is idempotent at a fixed or later now: after one run, a
second run over the committed state enqueues no further dispatch at all; and
at the level of the per-registration branch logic of lines 99-116, evaluating
a registration a second time at the same day count produces no dispatch,
because each flag is checked before the dispatch decision. -/
theorem c4_second_run_no_dispatch (now now2 : Int) (regs : List Registration) :
    (check_and_send_reminders now2
        (check_and_send_reminders now regs).db).dispatches = [] ∧
    ∀ (today : Int) (r : Registration) (wd wd2 : Date) (wt wt2 : Time),
      (evalBranches today (evalBranches today r wd wt).1 wd2 wt2).2 = none :=
  ⟨check_dispatches_nil now2 (check_and_send_reminders now regs).db,
    fun today r wd wd2 wt wt2 => evalBranches_idem today r wd wd2 wt wt2⟩

theorem register_webinar_db_cases (data : IntakeRequest) (nextId : Nat)
    (regs : List Registration) :
    (register_webinar data nextId regs).2 = regs ∨
    ∃ p dt nm tpl, (register_webinar data nextId regs).2 =
      regs ++ [⟨nextId, p, dt, tpl, nm, false, false, false⟩] := by
  unfold register_webinar
  cases h : intakeAttempt data with
  | error e => exact Or.inl rfl
  | ok v =>
    obtain ⟨dt, p, nm, tpl⟩ := v
    exact Or.inr ⟨p, dt, nm, tpl, rfl⟩

/-- C5: delivery flags are monotone: a row added by the intake endpoint is
created with all three flags false; the branch logic of lines 99-116 never
resets a set flag; a flag moves from false to true exactly when a dispatch
carrying that boundary's day count is emitted in the same evaluation; and the
cycle task never resets a persisted flag (in the current code it commits no
flag change at all, every dispatch attempt aborting on line 95). -/
theorem c5_flags_monotone :
    (∀ (data : IntakeRequest) (nextId : Nat) (regs : List Registration)
        (r : Registration), r ∈ (register_webinar data nextId regs).2 →
        r ∈ regs ∨ (r.sent_3d = false ∧ r.sent_2d = false ∧ r.sent_1d = false)) ∧
    (∀ (today : Int) (r : Registration) (wd : Date) (wt : Time),
        (r.sent_3d = true → (evalBranches today r wd wt).1.sent_3d = true) ∧
        (r.sent_2d = true → (evalBranches today r wd wt).1.sent_2d = true) ∧
        (r.sent_1d = true → (evalBranches today r wd wt).1.sent_1d = true)) ∧
    (∀ (today : Int) (r : Registration) (wd : Date) (wt : Time),
        ((r.sent_3d = false ∧ (evalBranches today r wd wt).1.sent_3d = true) ↔
          (∃ c, (evalBranches today r wd wt).2 = some c ∧ c.days_left = 3)) ∧
        ((r.sent_2d = false ∧ (evalBranches today r wd wt).1.sent_2d = true) ↔
          (∃ c, (evalBranches today r wd wt).2 = some c ∧ c.days_left = 2)) ∧
        ((r.sent_1d = false ∧ (evalBranches today r wd wt).1.sent_1d = true) ↔
          (∃ c, (evalBranches today r wd wt).2 = some c ∧ c.days_left = 1))) ∧
    (∀ (now : Int) (regs : List Registration),
        (check_and_send_reminders now regs).db = regs) := by
  refine ⟨?_, ?_, ?_, fun now regs => check_db_unchanged now regs⟩
  · intro data nextId regs r hr
    rcases register_webinar_db_cases data nextId regs with h | ⟨p, dt, nm, tpl, h⟩
    · exact Or.inl (h ▸ hr)
    · rw [h] at hr
      rcases List.mem_append.mp hr with hin | hnew
      · exact Or.inl hin
      · simp at hnew
        subst hnew
        exact Or.inr ⟨rfl, rfl, rfl⟩
  · intro today r wd wt
    unfold evalBranches
    split_ifs <;> simp_all
  · intro today r wd wt
    unfold evalBranches
    split_ifs with h1 h2 h3 <;> simp_all [daysOut]

theorem c5_witness :
    (evalBranches 0 regFixSent dFix tFix).1.sent_3d = true ∧
    (∃ c, (evalBranches 0 regFix3 dFix tFix).2 = some c ∧ c.days_left = 3) ∧
    (regFix3 ∈ [regFix3] ∨ (regFix3.sent_3d = false ∧ regFix3.sent_2d = false ∧
      regFix3.sent_1d = false)) := by
  refine ⟨(c5_flags_monotone.2.1 0 regFixSent dFix tFix).1 rfl,
    (c5_flags_monotone.2.2.1 0 regFix3 dFix tFix).1.mp ⟨rfl, by decide⟩,
    c5_flags_monotone.1 ⟨some "2025-01-04", some "10:30", none,
      some "+15550009999", none⟩ 9 [regFix3] regFix3 (by decide)⟩

/-- C6: every failure inside the dispatcher is caught by the `except` clause
(lines 85-86): whenever the `try` body raises — unparseable arguments, a
transport failure of the outbound call, or a non-success status turned into an
exception by `raise_for_status` — the task returns a normal result whose log
line carries the recipient and the cause, and no exception reaches the caller;
in particular a transport error or a 4xx/5xx status after the parses still
leaves exactly the one outbound call already issued. The controller's flag
update never consults this outcome (the cycle task takes no channel input at
all), so a flag already set is not rolled back. -/
theorem c6_dispatch_failures_caught (phone wd wt name : String)
    (days_left : Int) (transport : Payload → Except String Nat) :
    (∀ e ps, sendReminderTry phone wd wt name days_left transport =
        Except.error (e, ps) →
      send_whatsapp_reminder phone wd wt name days_left transport =
        ⟨ps, [errLog phone e]⟩) ∧
    (∀ (d : Date) (t : Time) e, strptimeDate wd = Except.ok d →
      strptimeTime wt = Except.ok t →
      transport ⟨phone, formatDateLong d, formatTime12 t, name, days_left⟩ =
        Except.error e →
      send_whatsapp_reminder phone wd wt name days_left transport =
        ⟨[⟨phone, formatDateLong d, formatTime12 t, name, days_left⟩],
          [errLog phone e]⟩) ∧
    (∀ (d : Date) (t : Time) (status : Nat), strptimeDate wd = Except.ok d →
      strptimeTime wt = Except.ok t →
      transport ⟨phone, formatDateLong d, formatTime12 t, name, days_left⟩ =
        Except.ok status → 400 ≤ status →
      send_whatsapp_reminder phone wd wt name days_left transport =
        ⟨[⟨phone, formatDateLong d, formatTime12 t, name, days_left⟩],
          [errLog phone (httpError status)]⟩) ∧
    (∀ e, errLog phone e = "Error sending reminder to " ++ phone ++ ": " ++ e) := by
  refine ⟨?_, ?_, ?_, fun e => rfl⟩
  · intro e ps h
    unfold send_whatsapp_reminder
    rw [h]
  · intro d t e hd ht htr
    unfold send_whatsapp_reminder sendReminderTry
    rw [hd, ht]
    simp [htr]
  · intro d t status hd ht htr h4
    unfold send_whatsapp_reminder sendReminderTry
    rw [hd, ht]
    simp [htr, h4]

theorem c6_witness :
    send_whatsapp_reminder "+15550001111" "2025-01-04" "10:30" "Alice" 3
        (fun _ => Except.error "ConnectionTimeout") =
      ⟨[⟨"+15550001111", formatDateLong ⟨2025, 1, 4⟩, formatTime12 ⟨10, 30⟩,
          "Alice", 3⟩],
        [errLog "+15550001111" "ConnectionTimeout"]⟩ :=
  (c6_dispatch_failures_caught "+15550001111" "2025-01-04" "10:30" "Alice" 3
      (fun _ => Except.error "ConnectionTimeout")).2.1
    ⟨2025, 1, 4⟩ ⟨10, 30⟩ "ConnectionTimeout" rfl rfl rfl

/-- C7: one run of the cycle produces at most one dispatch per registration: a
cycle over a single stored registration enqueues at most one call, a cycle
never enqueues more calls than there are stored registrations, and a dispatch
emitted by the branch logic of lines 99-116 carries that registration's unique
day count, which can match at most one of the disjoint boundaries 3, 2, 1. -/
theorem c7_at_most_one_dispatch_per_registration :
    (∀ (now : Int) (r : Registration),
        (check_and_send_reminders now [r]).dispatches.length ≤ 1) ∧
    (∀ (now : Int) (regs : List Registration),
        (check_and_send_reminders now regs).dispatches.length ≤ regs.length) ∧
    (∀ (today : Int) (r : Registration) (wd : Date) (wt : Time)
        (c : DispatchCall), (evalBranches today r wd wt).2 = some c →
        c.days_left = daysOut today r ∧
        (c.days_left = 3 ∨ c.days_left = 2 ∨ c.days_left = 1)) := by
  refine ⟨?_, ?_, ?_⟩
  · intro now r
    rw [check_dispatches_nil]
    simp
  · intro now regs
    rw [check_dispatches_nil]
    simp
  · intro today r wd wt c
    unfold evalBranches
    split_ifs with h1 h2 h3 <;> intro hc <;>
      first
      | (cases hc; simp_all)
      | simp_all

theorem c7_witness :
    (evalBranches 0 regFix3 dFix tFix).2 =
      some ⟨"+15550001111", dFix, tFix, "Alice", 3⟩ ∧
    DispatchCall.days_left ⟨"+15550001111", dFix, tFix, "Alice", 3⟩ =
        daysOut 0 regFix3 ∧
    (DispatchCall.days_left ⟨"+15550001111", dFix, tFix, "Alice", 3⟩ = 3 ∨
      DispatchCall.days_left ⟨"+15550001111", dFix, tFix, "Alice", 3⟩ = 2 ∨
      DispatchCall.days_left ⟨"+15550001111", dFix, tFix, "Alice", 3⟩ = 1) :=
  ⟨by decide,
    c7_at_most_one_dispatch_per_registration.2.2 0 regFix3 dFix tFix
      ⟨"+15550001111", dFix, tFix, "Alice", 3⟩ (by decide)⟩

/-- C8: a registration whose event instant is strictly in the past is not
fetched — the filter `webinar_dt >= now` of line 94 rejects it — a cycle over
it alone finishes without an exception and leaves it exactly as it was, and no
cycle ever changes any persisted flags. -/
theorem c8_past_event_untouched (now : Int) (r : Registration)
    (hpast : r.webinar_dt < now) :
    ¬ now ≤ r.webinar_dt ∧
    check_and_send_reminders now [r] = ⟨[r], [], none⟩ ∧
    ∀ regs : List Registration, (check_and_send_reminders now regs).db = regs := by
  have h : ¬ now ≤ r.webinar_dt := not_le.mpr hpast
  refine ⟨h, ?_, fun regs => check_db_unchanged now regs⟩
  unfold check_and_send_reminders cycleLoop cycleLoop
  simp [h]

/-- A registration one day in the past relative to instant 1440. -/
def regFixPast : Registration :=
  ⟨4, "+15550004444", 0, "template", "Dan", false, false, false⟩

theorem c8_witness :
    ¬ (1440 : Int) ≤ regFixPast.webinar_dt ∧
    check_and_send_reminders 1440 [regFixPast] = ⟨[regFixPast], [], none⟩ :=
  ⟨(c8_past_event_untouched 1440 regFixPast (by decide)).1,
    (c8_past_event_untouched 1440 regFixPast (by decide)).2.1⟩

theorem intakeAttempt_toBool (data : IntakeRequest) :
    (intakeAttempt data).toBool = wellFormed data := by
  obtain ⟨owd, owt, onm, oph, otp⟩ := data
  unfold intakeAttempt wellFormed
  cases owd with
  | none => rfl
  | some s =>
    cases hd : strptimeDate s with
    | error e => simp [hd, Except.toBool]
    | ok wd =>
      cases owt with
      | none => simp [hd, Except.toBool]
      | some s2 =>
        cases ht : strptimeTime s2 with
        | error e => simp [hd, ht, Except.toBool]
        | ok wt =>
          cases oph with
          | none => simp [hd, ht, Except.toBool]
          | some p => simp [hd, ht, Except.toBool]

/-- C9: intake validation: a request with an unparseable date or time or a
missing phone is answered with an HTTP 400 error and no row is created, the
stored state unchanged; a well-formed request creates exactly one row, with
all three delivery flags false, and its id is returned with HTTP 201. -/
theorem c9_intake_validation (data : IntakeRequest) (nextId : Nat)
    (regs : List Registration) :
    (wellFormed data = false →
      ∃ msg, register_webinar data nextId regs =
        (IntakeResponse.badRequest msg, regs)) ∧
    (wellFormed data = true →
      ∃ p dt nm tpl, register_webinar data nextId regs =
        (IntakeResponse.created nextId,
          regs ++ [⟨nextId, p, dt, tpl, nm, false, false, false⟩])) := by
  constructor
  · intro hwf
    cases h : intakeAttempt data with
    | error e => exact ⟨e, by unfold register_webinar; rw [h]⟩
    | ok v =>
      have hb := intakeAttempt_toBool data
      rw [h, hwf] at hb
      simp [Except.toBool] at hb
  · intro hwf
    cases h : intakeAttempt data with
    | error e =>
      have hb := intakeAttempt_toBool data
      rw [h, hwf] at hb
      simp [Except.toBool] at hb
    | ok v =>
      obtain ⟨dt, p, nm, tpl⟩ := v
      exact ⟨p, dt, nm, tpl, by unfold register_webinar; rw [h]⟩

/-- A request whose month field is 13: the date parse raises ValueError. -/
def dataBad : IntakeRequest :=
  ⟨some "2025-13-04", some "10:30", none, some "+15550006666", none⟩

/-- A fully well-formed intake request. -/
def dataGood : IntakeRequest :=
  ⟨some "2025-01-04", some "10:30", some "Alice", some "+15550006666",
    some "template"⟩

theorem c9_witness :
    (∃ msg, register_webinar dataBad 7 [] =
      (IntakeResponse.badRequest msg, [])) ∧
    (∃ p dt nm tpl, register_webinar dataGood 7 [] =
      (IntakeResponse.created 7, [] ++ [⟨7, p, dt, tpl, nm,
        false, false, false⟩])) :=
  ⟨(c9_intake_validation dataBad 7 []).1 (by decide),
    (c9_intake_validation dataGood 7 []).2 (by decide)⟩

theorem intakeAttempt_ok_of_parses (data : IntakeRequest) (s1 s2 : String)
    (d : Date) (t : Time) (p : String)
    (h1 : data.webinar_date = some s1) (h2 : strptimeDate s1 = Except.ok d)
    (h3 : data.webinar_time = some s2) (h4 : strptimeTime s2 = Except.ok t)
    (h5 : data.phone = some p) :
    intakeAttempt data = Except.ok (datetimeCombine d t, p,
      data.name.getD "user", data.message_template.getD defaultTemplate) := by
  unfold intakeAttempt
  simp only [h1, h2, h3, h4, h5]

/-- C10: the intake endpoint never checks that the event lies in the future: a
well-formed request whose combined date-time is already in the past at
registration time is still answered with HTTP 201 and a row whose flags are
all false; and at every instant from then on the fetch filter
`webinar_dt >= now` of line 94 excludes the row, while a cycle never changes
any stored flags and enqueues no dispatch — so no reminder is ever sent for
that registration. -/
theorem c10_past_event_accepted_never_reminded (data : IntakeRequest)
    (nextId : Nat) (regs : List Registration) (s1 s2 : String) (d : Date)
    (t : Time) (p : String) (now0 : Int)
    (h1 : data.webinar_date = some s1) (h2 : strptimeDate s1 = Except.ok d)
    (h3 : data.webinar_time = some s2) (h4 : strptimeTime s2 = Except.ok t)
    (h5 : data.phone = some p) (hpast : datetimeCombine d t < now0) :
    (register_webinar data nextId regs =
      (IntakeResponse.created nextId,
        regs ++ [⟨nextId, p, datetimeCombine d t,
          data.message_template.getD defaultTemplate,
          data.name.getD "user", false, false, false⟩])) ∧
    (∀ now1 : Int, now0 ≤ now1 → ¬ now1 ≤ datetimeCombine d t) ∧
    (∀ (now1 : Int) (regs1 : List Registration),
      (check_and_send_reminders now1 regs1).db = regs1 ∧
      (check_and_send_reminders now1 regs1).dispatches = []) := by
  refine ⟨?_, ?_, ?_⟩
  · unfold register_webinar
    rw [intakeAttempt_ok_of_parses data s1 s2 d t p h1 h2 h3 h4 h5]
  · intro now1 hle
    omega
  · intro now1 regs1
    exact ⟨check_db_unchanged now1 regs1, check_dispatches_nil now1 regs1⟩

/-- A request whose event date-time lies years in the past. -/
def dataPast : IntakeRequest :=
  ⟨some "2020-01-01", some "10:00", none, some "+15550005555", none⟩

theorem c10_witness :
    (register_webinar dataPast 9 [] =
      (IntakeResponse.created 9,
        [] ++ [⟨9, "+15550005555", datetimeCombine ⟨2020, 1, 1⟩ ⟨10, 0⟩,
          defaultTemplate, "user", false, false, false⟩])) ∧
    ¬ datetimeCombine ⟨2026, 1, 1⟩ ⟨0, 0⟩ ≤ datetimeCombine ⟨2020, 1, 1⟩ ⟨10, 0⟩ := by
  have h := c10_past_event_accepted_never_reminded dataPast 9 [] "2020-01-01"
    "10:00" ⟨2020, 1, 1⟩ ⟨10, 0⟩ "+15550005555"
    (datetimeCombine ⟨2026, 1, 1⟩ ⟨0, 0⟩) rfl rfl rfl rfl rfl (by decide)
  exact ⟨h.1, h.2.1 (datetimeCombine ⟨2026, 1, 1⟩ ⟨0, 0⟩) le_rfl⟩
